import Mathlib

/-!
# HarmonyBackend — verification of the signalling-server core

Shallow embedding of the HarmonyBackend signalling server (Go) and proofs
about it.  The embedding follows the current snapshot of the sources:

* `model/client.go`          — `Client`, `SetPublicKey`, `Route`, sockets
* `model/hub.go` / generic hub — directory of online peers
* `model/routinerouter.go`   — the transaction engine (`routeRoutine`,
  `distributeRoutineOutputs`)
* `model/routineinterface.go`— `RoutineInput` / `RoutineOutput`
* `routines/establishconnectiontopeer.go` — the `sendConnectionRequest`
  reference state machine
* `routines/comeonline.go`   — the identity-attestation routine
* `routines/master.go` (current `MasterRoutine` struct version) — dispatch
* `routines/utils.go`        — JSON error helpers

Modelling conventions:

* User message payloads are modelled at the JSON level: a `JsonMsg` is
  either a parsed JSON document or a `malformed` raw text carrying the
  parse-error text that the external `gojsonschema` loader would report.
* JSON-schema validation (the external `gojsonschema` library) is
  transliterated schema-by-schema into decidable Lean predicates over the
  JSON document, including the draft-2020 applicability rule that
  `properties` / `required` / `additionalProperties` constrain only object
  instances.  The English *description text* of a schema failure is
  produced by the external library and is not reproduced; it is modelled
  by the single constant `jsonSchemaFailureText` (no claim depends on it).
* Public keys: the current test and util code treats `model.PublicKey` as
  a string-like token (`(model.PublicKey)("MCow…")`,
  `(*model.PublicKey)(&pkstr)` in `routines/utils.go`); equality is
  byte-exact either way, so keys are modelled as `String`.
* Go channels appear only in the engine and router embeddings, where the
  channel operations of one loop iteration are recorded as an explicit
  event list and buffered channels as explicit queues.
* Cryptographic primitives (Ed25519 verify, base64/PKIX decoding) are out
  of scope per spec §1 and are passed in as an abstract interface.
-/

namespace Harmony

/-- `model.PublicKey`: opaque identifier of a peer, equality byte-exact.
The current utils/tests treat it as a string-like token; modelled as
`String`. -/
abbrev PublicKey := String

/-- `model.RoutineMsgType` enum (routineinterface.go). -/
inductive RoutineMsgType where
  | UsrMsg
  | Timeout
  | ClientClose
deriving DecidableEq

/-- A JSON document, as produced by parsing a user message.  Objects are
association lists in document order; numbers are modelled as integers
(the only numeric field used by the routines, `sdpMLineIndex`, is
schema-constrained to an integer). -/
inductive Json where
  | null
  | jbool (b : Bool)
  | num (n : Int)
  | str (s : String)
  | arr (elems : List Json)
  | obj (fields : List (String × Json))

/-- A user-message payload: a parsed JSON document, or raw text that the
JSON loader rejects (carrying the parse-error text the external library
reports for it). -/
inductive JsonMsg where
  | malformed (errText : String)
  | val (j : Json)

/-- `model.RoutineInput` (routineinterface.go / docs/architecture.md). -/
structure RoutineInput where
  MsgType : RoutineMsgType
  /-- public key of the sending client; nil if unset -/
  Pk : Option PublicKey
  /-- user message payload; meaningful only for `UsrMsg` -/
  Msg : JsonMsg

/-- `model.RoutineOutput` (routineinterface.go).  `TimeoutDuration` is in
nanoseconds (`time.Duration`). -/
structure RoutineOutput where
  Pk : Option PublicKey
  Msgs : List String
  Done : Bool
  TimeoutDuration : Int
  TimeoutEnabled : Bool
deriving DecidableEq, Inhabited

/-- `model.MakeRoutineOutput` (routineinterface.go). -/
def MakeRoutineOutput (done : Bool) (msgs : List String) : RoutineOutput :=
  { Pk := none
    Msgs := msgs
    Done := done
    TimeoutEnabled := false
    TimeoutDuration := 0 }

/-! ## Go `encoding/json` string marshalling

`json.Marshal` on a Go string emits `"`-delimited text escaping `"`,
`\`, control characters (with `\n`, `\r`, `\t` special-cased, the rest as
`\u00XX`), the HTML characters `<`, `>`, `&` as `<` / `>` /
`&`, and U+2028/U+2029. -/

/-- Lowercase hex digit. -/
def hexDigitChar (n : Nat) : Char :=
  if n < 10 then Char.ofNat (48 + n) else Char.ofNat (87 + n)

/-- Escape one character the way Go `encoding/json` does. -/
def goEscapeChar (c : Char) : List Char :=
  if c = '"' then ['\\', '"']
  else if c = '\\' then ['\\', '\\']
  else if c = '\n' then ['\\', 'n']
  else if c = '\r' then ['\\', 'r']
  else if c = '\t' then ['\\', 't']
  else if c.toNat < 32 then
    ['\\', 'u', '0', '0', hexDigitChar (c.toNat / 16), hexDigitChar (c.toNat % 16)]
  else if c = '<' then ['\\', 'u', '0', '0', '3', 'c']
  else if c = '>' then ['\\', 'u', '0', '0', '3', 'e']
  else if c = '&' then ['\\', 'u', '0', '0', '2', '6']
  else if c.toNat = 8232 then ['\\', 'u', '2', '0', '2', '8']
  else if c.toNat = 8233 then ['\\', 'u', '2', '0', '2', '9']
  else [c]

/-- Go `encoding/json` marshalling of a string value, quotes included. -/
def goMarshalString (s : String) : String :=
  String.mk ('"' :: (s.data.flatMap goEscapeChar) ++ ['"'])

/-- Go `strconv`/`encoding/json` rendering of an integer. -/
def goMarshalInt (n : Int) : String :=
  toString n

/-! ## JSON helpers shared by the schema validators -/

/-- First binding of a key in a JSON object (objects coming from a real
JSON parse have unique keys). -/
def jsonObjLookup (fields : List (String × Json)) (k : String) : Option Json :=
  match fields with
  | [] => none
  | (k', v) :: rest => if k' = k then some v else jsonObjLookup rest k

/-- Whether a JSON value is a string. -/
def jsonIsStr : Json → Bool
  | Json.str _ => true
  | _ => false

/-- Whether a JSON value is an integer (`"type":"integer"`). -/
def jsonIsInt : Json → Bool
  | Json.num _ => true
  | _ => false

/-- Extract a string field of an object, with Go zero value `""` as the
default (mirrors `json.Unmarshal` into a `string` struct field). -/
def getStrField (fields : List (String × Json)) (k : String) : String :=
  match jsonObjLookup fields k with
  | some (Json.str s) => s
  | _ => ""

/-- Extract an integer field of an object, Go zero value `0` default
(mirrors `json.Unmarshal` into an `int` struct field). -/
def getIntField (fields : List (String × Json)) (k : String) : Int :=
  match jsonObjLookup fields k with
  | some (Json.num n) => n
  | _ => 0

/-- Draft-2020 applicability: `properties` / `required` /
`additionalProperties` constrain only object instances; any non-object
instance satisfies them vacuously. -/
def applyIfObj (check : List (String × Json) → Bool) : Json → Bool
  | Json.obj fields => check fields
  | _ => true

/-- `additionalProperties: false` against a list of allowed keys. -/
def onlyKeys (allowed : List String) (fields : List (String × Json)) : Bool :=
  fields.all (fun p => allowed.contains p.1)

/-- Stand-in for the failure-description text produced by the external
`gojsonschema` library (`formatJSONError` in routines/master.go joins the
library descriptions with `", "`); the English text is external-library
behaviour and no claim depends on it. -/
def jsonSchemaFailureText : String := "json schema validation failed"

/-! ## routines/utils.go (current version) -/

/-- `MakeJSONError` (routines/utils.go): `\x7b"terminate":"cancel"\x7d`,
with an `error` property carrying the first argument when present.  The
non-empty case marshals a struct with field order terminate, error. -/
def MakeJSONError (msg : List String) : String :=
  match msg with
  | [] => "\x7b\"terminate\":\"cancel\"\x7d"
  | m :: _ =>
      "\x7b\"terminate\":\"cancel\",\"error\":" ++ goMarshalString m ++ "\x7d"

/-- `terminateDoneJSONMsg` (routines/utils.go). -/
def terminateDoneJSONMsg : String := "\x7b\"terminate\":\"done\"\x7d"

/-- `clientCancelSchema` (routines/utils.go, current version, which has no
`additionalProperties: false`): object, `terminate` required and equal to
the constant `"cancel"`, `error` a string when present. -/
def clientCancelSchemaValid : Json → Bool
  | Json.obj fields =>
      (match jsonObjLookup fields "terminate" with
        | some (Json.str s) => s = "cancel"
        | _ => false)
      &&
      (match jsonObjLookup fields "error" with
        | none => true
        | some v => jsonIsStr v)
  | _ => false

/-- `isClientCancelMsg` (routines/utils.go): loader error or schema
mismatch means not a cancel message. -/
def isClientCancelMsg : JsonMsg → Bool
  | JsonMsg.malformed _ => false
  | JsonMsg.val j => clientCancelSchemaValid j

/-- `parsePublicKey` (routines/utils.go, current version): casts the
string directly to a `model.PublicKey`, always succeeding. -/
def parsePublicKey (pkstr : String) : PublicKey := pkstr

/-- `publicKeyToString` (routines/utils.go, current version). -/
def publicKeyToString (pk : PublicKey) : String := pk

/-- `publicKeyPattern` (routines/utils.go): the standard base64 regular
expression `^(?:[A-Za-z0-9+/]\x7b4\x7d)*(?:[A-Za-z0-9+/]\x7b2\x7d==|[A-Za-z0-9+/]\x7b3\x7d=)?$`. -/
def isBase64Char (c : Char) : Bool :=
  (('A' ≤ c && c ≤ 'Z') || ('a' ≤ c && c ≤ 'z') || ('0' ≤ c && c ≤ '9')
    || c = '+' || c = '/')

/-- Match against `publicKeyPattern`: zero or more 4-char base64 blocks,
the last of which may carry `=` padding. -/
def base64PatternAux : List Char → Bool
  | [] => true
  | c1 :: c2 :: c3 :: c4 :: rest =>
      if isBase64Char c1 && isBase64Char c2 && isBase64Char c3 && isBase64Char c4 then
        base64PatternAux rest
      else
        rest.isEmpty &&
          ((isBase64Char c1 && isBase64Char c2 && c3 = '=' && c4 = '=') ||
           (isBase64Char c1 && isBase64Char c2 && isBase64Char c3 && c4 = '='))
  | _ => false

def matchesBase64Pattern (s : String) : Bool :=
  base64PatternAux s.data

/-! ## Peer directory: the generic hub
(`genericHub` in model, current thread-safe version; the lock serialises
the map operations, so each operation is modelled as one atomic function
on the map.  The Go map is modelled as an association list whose lookup
returns the first binding; `AddClient` only ever inserts an absent key,
so keys stay unique.) -/

/-- `genericHub[C]`: map public key → client. -/
abbrev GenericHub (C : Type) : Type := List (PublicKey × C)

/-- `newGenericHub`. -/
def newGenericHub (C : Type) : GenericHub C := []

namespace GenericHub

/-- `genericHub.GetClient`. -/
def GetClient {C : Type} (h : GenericHub C) (key : PublicKey) : Option C :=
  match h with
  | [] => none
  | (k, c) :: rest => if k = key then some c else GetClient rest key

/-- `genericHub.AddClient`: error and no change when the key is present,
otherwise insert.  The second component is the returned `error` value. -/
def AddClient {C : Type} (h : GenericHub C) (pk : PublicKey) (client : C) :
    GenericHub C × Option String :=
  if (GetClient h pk).isSome then
    (h, some "client with public key already exists")
  else
    ((pk, client) :: h, none)

/-- `genericHub.DeleteClient`: error and no change when the key is absent,
otherwise remove that key. -/
def DeleteClient {C : Type} (h : GenericHub C) (key : PublicKey) :
    GenericHub C × Option String :=
  if (GetClient h key).isSome then
    (h.filter (fun p => p.1 ≠ key), none)
  else
    (h, some "client with public key does not exist")

/-- The keys currently registered. -/
def keys {C : Type} (h : GenericHub C) : List PublicKey :=
  h.map Prod.fst

end GenericHub

/-! ## model/client.go: the `Client` record and `SetPublicKey`
Only the `publicKey` field takes part in the claims; the connection,
transaction table and locks live in the router embedding below. -/

/-- The identity-relevant part of `model.Client`. -/
structure Client where
  publicKey : Option PublicKey
deriving DecidableEq

/-- `model.MakeClient`: the public key starts unset. -/
def MakeClient : Client :=
  { publicKey := none }

/-- `Client.SetPublicKey` (model/client.go): not allowed if already set;
the second component is the returned `error` value. -/
def SetPublicKey (c : Client) (pk : Option PublicKey) : Client × Option String :=
  if c.publicKey.isSome then
    (c, some "public key already set")
  else
    ({ c with publicKey := pk }, none)

/-! ## routines/comeonline.go: the `recvSignature` step

The cryptographic primitives (base64 decoding, Ed25519 verification) are
external collaborators per spec §1 and enter as an abstract interface.
The step acts on a world = (hub, table of clients); the `ComeOnline`
routine stores the id of its client. -/

/-- Identifier of a `Client` object in the world (a pointer stands for
its identity in Go). -/
abbrev ClientId := Nat

/-- Abstract interface of the out-of-scope cryptographic primitives
(spec §1: Ed25519 verify and base64 decoding are described only at their
interface).  `decodeBase64` returns the raw bytes or the library error
text. -/
structure CryptoPrimitives where
  decodeBase64 : String → Except String (List Nat)
  ed25519Verify : (pubKeyBytes : List Nat) → (message : String) → (sig : List Nat) → Bool

/-- `comeOnlineStep` enum (comeonline.go). -/
inductive ComeOnlineStep where
  | hello
  | recvPublicKey
  | recvSignature
deriving DecidableEq

/-- The `ComeOnline` routine state (comeonline.go).  `client` identifies
the `model.Client` this routine acts for; `ed25519PublicKey` holds the
decoded key bytes from the `recvPublicKey` step. -/
structure ComeOnline where
  client : ClientId
  step : ComeOnlineStep
  signThis : String
  publicKey : Option PublicKey
  ed25519PublicKey : Option (List Nat)
deriving DecidableEq

/-- The process state the `comeOnline` routine touches: the hub and every
client object. -/
structure World where
  hub : GenericHub ClientId
  clients : List (ClientId × Client)
deriving DecidableEq

/-- The stored public key of a client object in the world. -/
def World.clientKey (w : World) (cid : ClientId) : Option (Option PublicKey) :=
  (w.clients.lookup cid).map Client.publicKey

/-- Apply `Client.SetPublicKey` to one client object of the world,
discarding the returned error exactly as `recvSignature` does. -/
def World.setClientKey (w : World) (cid : ClientId) (pk : Option PublicKey) : World :=
  { w with
    clients := w.clients.map (fun p =>
      if p.1 = cid then (p.1, (SetPublicKey p.2 pk).1) else p) }

/-- `userSignatureMessageSchema` (comeonline.go): object with only a
required `signature` string property matching `signaturePattern`.

Modelled from the spec: the constant `signaturePattern` is referenced by
comeonline.go but its definition is not among the sources; the spec
(§6 `comeOnline`) calls the signature base64-Ed25519 and the sibling
`publicKeyPattern` in routines/utils.go is the standard base64 regular
expression, so the same base64 shape is used here. -/
def userSignatureMessageSchemaValid : Json → Bool
  | Json.obj fields =>
      onlyKeys ["signature"] fields &&
      (match jsonObjLookup fields "signature" with
        | some (Json.str s) => matchesBase64Pattern s
        | _ => false)
  | _ => false

/-- `parseUserSignatureMessage` (comeonline.go): schema-validate, extract
the `signature` field, base64-decode it. -/
def parseUserSignatureMessage (cp : CryptoPrimitives) (msg : JsonMsg) :
    Except String (List Nat) :=
  match msg with
  | JsonMsg.malformed errText => Except.error errText
  | JsonMsg.val j =>
      if userSignatureMessageSchemaValid j then
        match j with
        | Json.obj fields => cp.decodeBase64 (getStrField fields "signature")
        | _ => Except.error jsonSchemaFailureText
      else
        Except.error jsonSchemaFailureText

/-- `makeCOOutput` (comeonline.go): a single output with the 30 s
`comeOnline` timeout always armed. -/
def makeCOOutput (done : Bool) (msgs : List String) : List RoutineOutput :=
  [{ Pk := none
     Msgs := msgs
     Done := done
     TimeoutEnabled := true
     TimeoutDuration := 30 * 1000000000 }]

/-- `ComeOnline.recvSignature` (comeonline.go lines 138-162): parse the
signature, verify it, **add the client to the hub first**, and only on
success set the client public key (the `SetPublicKey` error is
discarded).  The two `none` fallbacks correspond to nil-pointer
dereferences in Go (`*c.ed25519PublicKey`, `*c.publicKey`); they are
unreachable because `recvPublicKey` sets both fields before moving the
routine to this step. -/
def ComeOnline.recvSignature (cp : CryptoPrimitives) (c : ComeOnline) (w : World)
    (msg : JsonMsg) : ComeOnline × World × List RoutineOutput :=
  match parseUserSignatureMessage cp msg with
  | Except.error e => (c, w, makeCOOutput true [MakeJSONError [e]])
  | Except.ok sig =>
    match c.ed25519PublicKey, c.publicKey with
    | some keyBytes, some pk =>
        if ¬ cp.ed25519Verify keyBytes c.signThis sig then
          (c, w, makeCOOutput true [MakeJSONError ["Invalid signature"]])
        else
          match GenericHub.AddClient w.hub pk c.client with
          | (_, some e) => (c, w, makeCOOutput true [MakeJSONError [e]])
          | (hub', none) =>
              (c, (World.setClientKey { w with hub := hub' } c.client (some pk)),
                makeCOOutput true ["\x7b\"welcome\":\"welcome\",\"terminate\":\"done\"\x7d"])
    | _, _ => (c, w, [])

/-! ## routines/establishconnectiontopeer.go: the `sendConnectionRequest`
reference state machine -/

/-- `model.KEYLEN` (model/client.go): length of a key in bytes. -/
def KEYLEN : Nat := 64

/-- `ECTPState` enum. -/
inductive ECTPState where
  | ectp_entry
  | ectp_bAcceptOrReject
  | ectp_aSdpAnswer
  | ectp_iceCandidates
deriving DecidableEq

export ECTPState (ectp_entry ectp_bAcceptOrReject ectp_aSdpAnswer ectp_iceCandidates)

/-- `ectpTimeoutDuration = 10 * time.Second`, in nanoseconds. -/
def ectpTimeoutDuration : Int := 10 * 1000000000

/-- The `EstablishConnectionToPeer` routine state.  The Go struct holds a
`*model.Hub`; the hub contents at the time of the step are carried in the
`hub` field. -/
structure EstablishConnectionToPeer where
  pkA : Option PublicKey
  pkB : Option PublicKey
  pkAHasSentEmptyICECandidate : Bool
  pkBHasSentEmptyICECandidate : Bool
  hub : GenericHub ClientId
  state : ECTPState
deriving DecidableEq

/-- `newEstablishConnectionToPeer` (the `client` argument is unused by
the Go constructor; every other field starts at its zero value). -/
def newEstablishConnectionToPeer (hub : GenericHub ClientId) : EstablishConnectionToPeer :=
  { pkA := none
    pkB := none
    pkAHasSentEmptyICECandidate := false
    pkBHasSentEmptyICECandidate := false
    hub := hub
    state := ectp_entry }

/-- `ectpError`: wrapper for a single terminating error output. -/
def ectpError (pk : Option PublicKey) (msgs : List String) : List RoutineOutput :=
  [{ Pk := pk
     Done := true
     Msgs := [MakeJSONError msgs]
     TimeoutEnabled := false
     TimeoutDuration := 0 }]

/-- Lowercase hex digit, as in the `entry` schema pattern
`^[0123456789abcdef]\x7bKEYLEN*2\x7d$`. -/
def isLowerHexChar (c : Char) : Bool :=
  ('0' ≤ c && c ≤ '9') || ('a' ≤ c && c ≤ 'f')

/-- The `key` pattern of `entrySchema`: exactly `KEYLEN*2` lowercase hex
characters. -/
def matchesEntryKeyPattern (s : String) : Bool :=
  s.data.length = 2 * KEYLEN && s.data.all isLowerHexChar

/-- `entrySchema`: object with exactly the required properties
`initiate` (const `"sendConnectionRequest"`) and `key` (hex string). -/
def entrySchemaValid : Json → Bool
  | Json.obj fields =>
      onlyKeys ["initiate", "key"] fields &&
      (match jsonObjLookup fields "initiate" with
        | some (Json.str s) => s = "sendConnectionRequest"
        | _ => false) &&
      (match jsonObjLookup fields "key" with
        | some (Json.str s) => matchesEntryKeyPattern s
        | _ => false)
  | _ => false

/-- The `acceptAndOffer` branch of `bAcceptOrRejectSchema.oneOf`
(draft-2020 applicability: object keywords constrain only objects). -/
def bAcceptOrReject_acceptAndOfferBranch (forwardVal : Json) : Bool :=
  applyIfObj (fun ffs =>
    onlyKeys ["type", "payload"] ffs &&
    (match jsonObjLookup ffs "type" with
      | some (Json.str s) => s = "acceptAndOffer"
      | _ => false) &&
    (match jsonObjLookup ffs "payload" with
      | none => false
      | some payload =>
          applyIfObj (fun pfs =>
            onlyKeys ["type", "sdp"] pfs &&
            (match jsonObjLookup pfs "type" with
              | some (Json.str s) => s = "offer"
              | _ => false) &&
            (match jsonObjLookup pfs "sdp" with
              | some v => jsonIsStr v
              | none => false)) payload)) forwardVal

/-- The `reject` branch of `bAcceptOrRejectSchema.oneOf`. -/
def bAcceptOrReject_rejectBranch (forwardVal : Json) : Bool :=
  applyIfObj (fun ffs =>
    onlyKeys ["type"] ffs &&
    (match jsonObjLookup ffs "type" with
      | some (Json.str s) => s = "reject"
      | _ => false)) forwardVal

/-- `bAcceptOrRejectSchema`: object with exactly a required `forward`
property whose value matches exactly one of the two branches (`oneOf`). -/
def bAcceptOrRejectSchemaValid : Json → Bool
  | Json.obj fields =>
      onlyKeys ["forward"] fields &&
      (match jsonObjLookup fields "forward" with
        | none => false
        | some fw =>
            xor (bAcceptOrReject_acceptAndOfferBranch fw) (bAcceptOrReject_rejectBranch fw))
  | _ => false

/-- `aSdpAnswerSchema`: object with exactly a required `forward` object
of const type `"answer"` carrying an `\x7banswer, sdp\x7d` payload. -/
def aSdpAnswerSchemaValid : Json → Bool
  | Json.obj fields =>
      onlyKeys ["forward"] fields &&
      (match jsonObjLookup fields "forward" with
        | none => false
        | some fw =>
            applyIfObj (fun ffs =>
              onlyKeys ["type", "payload"] ffs &&
              (match jsonObjLookup ffs "type" with
                | some (Json.str s) => s = "answer"
                | _ => false) &&
              (match jsonObjLookup ffs "payload" with
                | none => false
                | some payload =>
                    applyIfObj (fun pfs =>
                      onlyKeys ["type", "sdp"] pfs &&
                      (match jsonObjLookup pfs "type" with
                        | some (Json.str s) => s = "answer"
                        | _ => false) &&
                      (match jsonObjLookup pfs "sdp" with
                        | some v => jsonIsStr v
                        | none => false)) payload)) fw)
  | _ => false

/-- `iceCandidatesSchema`: object with exactly a required `forward`
object of const type `"ICECandidate"` and a payload with the four
required candidate properties. -/
def iceCandidatesSchemaValid : Json → Bool
  | Json.obj fields =>
      onlyKeys ["forward"] fields &&
      (match jsonObjLookup fields "forward" with
        | none => false
        | some fw =>
            applyIfObj (fun ffs =>
              onlyKeys ["type", "payload"] ffs &&
              (match jsonObjLookup ffs "type" with
                | some (Json.str s) => s = "ICECandidate"
                | _ => false) &&
              (match jsonObjLookup ffs "payload" with
                | none => false
                | some payload =>
                    applyIfObj (fun pfs =>
                      onlyKeys ["candidate", "sdpMLineIndex", "sdpMid", "usernameFragment"] pfs &&
                      (match jsonObjLookup pfs "candidate" with
                        | some v => jsonIsStr v
                        | none => false) &&
                      (match jsonObjLookup pfs "sdpMLineIndex" with
                        | some v => jsonIsInt v
                        | none => false) &&
                      (match jsonObjLookup pfs "sdpMid" with
                        | some v => jsonIsStr v
                        | none => false) &&
                      (match jsonObjLookup pfs "usernameFragment" with
                        | some v => jsonIsStr v
                        | none => false)) payload)) fw)
  | _ => false

namespace EstablishConnectionToPeer

/-- `EstablishConnectionToPeer.cancel`: the client sent a
`\x7b"terminate":"cancel"\x7d` message.  Outside `entry`, Go dereferences
`args.Pk` and `r.pkA` (`*args.Pk == *r.pkA`); the option comparison is
exact whenever both are set, which holds in every reachable non-entry
state. -/
def cancel (r : EstablishConnectionToPeer) (args : RoutineInput) :
    EstablishConnectionToPeer × List RoutineOutput :=
  if r.state = ectp_entry then
    (r, [{ Pk := none, Msgs := [], Done := true
           TimeoutEnabled := false, TimeoutDuration := 0 }])
  else
    let peer := if args.Pk = r.pkA then r.pkB else r.pkA
    (r, [{ Pk := none, Msgs := [], Done := true
           TimeoutEnabled := false, TimeoutDuration := 0 },
         (ectpError peer ["Peer cancelled the transaction"]).head!])

/-- `EstablishConnectionToPeer.entry` (lines 134-182): store the sender
key, validate, parse the target key, then branch on whether the target
is in the hub. -/
def entry (r : EstablishConnectionToPeer) (args : RoutineInput) :
    EstablishConnectionToPeer × List RoutineOutput :=
  match args.Pk with
  | none => (r, ectpError none ["You have not provided a public key"])
  | some pk =>
    let r := { r with pkA := some pk }
    match args.Msg with
    | JsonMsg.malformed errText => (r, ectpError none [errText])
    | JsonMsg.val j =>
      if ¬ entrySchemaValid j then
        (r, ectpError none [jsonSchemaFailureText])
      else
        let fields := match j with | Json.obj fs => fs | _ => []
        let pkB := parsePublicKey (getStrField fields "key")
        let r := { r with pkB := some pkB }
        if (GenericHub.GetClient r.hub pkB).isSome then
          ({ r with state := ectp_bAcceptOrReject },
            [{ Pk := some pkB
               Msgs := ["\x7b\"initiate\":\"receiveConnectionRequest\",\"key\":\""
                          ++ publicKeyToString pk ++ "\"\x7d"]
               Done := false
               TimeoutEnabled := true
               TimeoutDuration := ectpTimeoutDuration }])
        else
          (r, [{ Pk := r.pkA
                 Msgs := ["\x7b\"peerStatus\":\"offline\",\"forwarded\":null,\"terminate\":\"done\"\x7d"]
                 Done := true
                 TimeoutEnabled := false
                 TimeoutDuration := 0 }])

/-- The message the `reject` branch sends to the initiator. -/
def rejectMsgToA : String :=
  "\x7b\"peerStatus\":\"online\",\"forwarded\":\x7b\"type\":\"reject\"\x7d,\"terminate\":\"done\"\x7d"

/-- The raw multi-line `\x7b "terminate": "done" \x7d` literal the
`reject` branch sends to the peer (tabs and newlines as in the source). -/
def rejectMsgToB : String :=
  "\x7b\n\t\t\t\t\t\"terminate\": \"done\"\n\t\t\t\t\x7d"

/-- `json.Marshal` of the `acceptAndOffer` forward to the initiator. -/
def acceptAndOfferMsgToA (sdp : String) : String :=
  "\x7b\"peerStatus\":\"online\",\"forwarded\":\x7b\"type\":\"acceptAndOffer\",\"payload\":\x7b\"type\":\"offer\",\"sdp\":"
    ++ goMarshalString sdp ++ "\x7d\x7d\x7d"

/-- `EstablishConnectionToPeer.bAcceptOrReject` (lines 232-319). -/
def bAcceptOrReject (r : EstablishConnectionToPeer) (args : RoutineInput) :
    EstablishConnectionToPeer × List RoutineOutput :=
  if args.Pk = r.pkA then
    (r, ectpError r.pkA ["Message sent out or order"]
          ++ ectpError r.pkB ["Peer sent a malformed message"])
  else
    match args.Msg with
    | JsonMsg.malformed errText =>
        (r, ectpError none [errText] ++ ectpError r.pkA ["Peer sent a malformed message"])
    | JsonMsg.val j =>
      if ¬ bAcceptOrRejectSchemaValid j then
        (r, ectpError none [jsonSchemaFailureText]
              ++ ectpError r.pkA ["Peer sent a malformed message"])
      else
        let fields := match j with | Json.obj fs => fs | _ => []
        let forwardFields :=
          match jsonObjLookup fields "forward" with
          | some (Json.obj ffs) => ffs
          | _ => []
        match getStrField forwardFields "type" with
        | "reject" =>
            (r, [{ Pk := r.pkA
                   Msgs := [rejectMsgToA]
                   Done := true, TimeoutEnabled := false, TimeoutDuration := 0 },
                 { Pk := r.pkB
                   Msgs := [rejectMsgToB]
                   Done := true, TimeoutEnabled := false, TimeoutDuration := 0 }])
        | "acceptAndOffer" =>
            let sdp :=
              match jsonObjLookup forwardFields "payload" with
              | some (Json.obj pfs) => getStrField pfs "sdp"
              | _ => ""
            ({ r with state := ectp_aSdpAnswer },
              [{ Pk := r.pkA
                 Msgs := [acceptAndOfferMsgToA sdp]
                 Done := false
                 TimeoutEnabled := true
                 TimeoutDuration := ectpTimeoutDuration }])
        | _ => (r, [])  -- Go: panic(args.Msg); unreachable after validation

/-- `json.Marshal` of the `answer` forward to the peer. -/
def answerMsgToB (sdp : String) : String :=
  "\x7b\"forwarded\":\x7b\"type\":\"answer\",\"payload\":\x7b\"type\":\"answer\",\"sdp\":"
    ++ goMarshalString sdp ++ "\x7d\x7d\x7d"

/-- `EstablishConnectionToPeer.aSdpAnswer` (lines 356-409). -/
def aSdpAnswer (r : EstablishConnectionToPeer) (args : RoutineInput) :
    EstablishConnectionToPeer × List RoutineOutput :=
  if args.Pk = r.pkB then
    (r, ectpError r.pkB ["Message sent out or order"]
          ++ ectpError r.pkA ["Peer sent a malformed message"])
  else
    match args.Msg with
    | JsonMsg.malformed errText =>
        (r, ectpError none [errText] ++ ectpError r.pkB ["Peer sent a malformed message"])
    | JsonMsg.val j =>
      if ¬ aSdpAnswerSchemaValid j then
        (r, ectpError none [jsonSchemaFailureText]
              ++ ectpError r.pkB ["Peer sent a malformed message"])
      else
        let fields := match j with | Json.obj fs => fs | _ => []
        let sdp :=
          match jsonObjLookup fields "forward" with
          | some (Json.obj ffs) =>
              (match jsonObjLookup ffs "payload" with
                | some (Json.obj pfs) => getStrField pfs "sdp"
                | _ => "")
          | _ => ""
        ({ r with state := ectp_iceCandidates },
          [{ Pk := r.pkB
             Msgs := [answerMsgToB sdp]
             Done := false
             TimeoutEnabled := true
             TimeoutDuration := ectpTimeoutDuration }])

/-- The parsed `forward.payload` of an ICE-candidate message
(`json.Unmarshal` struct with Go zero values as defaults). -/
structure IcePayload where
  candidate : String
  sdpMLineIndex : Int
  sdpMid : String
  usernameFragment : String
deriving DecidableEq

/-- `json.Marshal` of the forwarded ICE candidate (field order of the
Go struct: forwarded \x7b type, payload \x7b candidate, sdpMLineIndex,
sdpMid, usernameFragment \x7d \x7d). -/
def iceForwardedMsg (ty : String) (p : IcePayload) : String :=
  "\x7b\"forwarded\":\x7b\"type\":" ++ goMarshalString ty
    ++ ",\"payload\":\x7b\"candidate\":" ++ goMarshalString p.candidate
    ++ ",\"sdpMLineIndex\":" ++ goMarshalInt p.sdpMLineIndex
    ++ ",\"sdpMid\":" ++ goMarshalString p.sdpMid
    ++ ",\"usernameFragment\":" ++ goMarshalString p.usernameFragment
    ++ "\x7d\x7d\x7d"

/-- The `forward` object of an already-validated message (Go unmarshal
navigates the parsed JSON; missing pieces give zero values). -/
def forwardFieldsOf (j : Json) : List (String × Json) :=
  match j with
  | Json.obj fields =>
      (match jsonObjLookup fields "forward" with
        | some (Json.obj ffs) => ffs
        | _ => [])
  | _ => []

/-- `json.Unmarshal` of an ICE message into the `usrMsg` struct of
`iceCandidates`: the forward type and payload, with Go zero values for
anything missing. -/
def iceUnmarshal (j : Json) : String × IcePayload :=
  let forwardFields := forwardFieldsOf j
  (getStrField forwardFields "type",
    match jsonObjLookup forwardFields "payload" with
    | some (Json.obj pfs) =>
        { candidate := getStrField pfs "candidate"
          sdpMLineIndex := getIntField pfs "sdpMLineIndex"
          sdpMid := getStrField pfs "sdpMid"
          usernameFragment := getStrField pfs "usernameFragment" }
    | _ =>
        { candidate := "", sdpMLineIndex := 0
          sdpMid := "", usernameFragment := "" })

/-- The validated tail of `iceCandidates`: validation, parsing,
empty-candidate bookkeeping, remarshalling and forwarding. -/
def iceCandidatesValidated (r : EstablishConnectionToPeer) (args : RoutineInput)
    (toPk : Option PublicKey) : EstablishConnectionToPeer × List RoutineOutput :=
  match args.Msg with
  | JsonMsg.malformed errText =>
      (r, ectpError none [errText] ++ ectpError toPk ["Peer sent a malformed message"])
  | JsonMsg.val j =>
    if ¬ iceCandidatesSchemaValid j then
      (r, ectpError none [jsonSchemaFailureText]
            ++ ectpError toPk ["Peer sent a malformed message"])
    else
      let ty := (iceUnmarshal j).1
      let payload := (iceUnmarshal j).2
      -- check for end of ice candidates (empty candidate field)
      let (r, terminate) :=
        if payload.candidate = "" then
          if args.Pk = r.pkA then
            ({ r with pkAHasSentEmptyICECandidate := true },
              r.pkBHasSentEmptyICECandidate)
          else if args.Pk = r.pkB then
            ({ r with pkBHasSentEmptyICECandidate := true },
              r.pkAHasSentEmptyICECandidate)
          else
            (r, false)
        else
          (r, false)
      let forwardedStr := iceForwardedMsg ty payload
      if terminate then
        (r, [{ Pk := toPk
               Msgs := [forwardedStr, terminateDoneJSONMsg]
               Done := true, TimeoutEnabled := false, TimeoutDuration := 0 },
             { Pk := none  -- sender
               Msgs := [terminateDoneJSONMsg]
               Done := true, TimeoutEnabled := false, TimeoutDuration := 0 }])
      else
        (r, [{ Pk := toPk
               Msgs := [forwardedStr]
               Done := false
               TimeoutEnabled := true
               TimeoutDuration := ectpTimeoutDuration }])

/-- `EstablishConnectionToPeer.iceCandidates` (lines 452-557). -/
def iceCandidates (r : EstablishConnectionToPeer) (args : RoutineInput) :
    EstablishConnectionToPeer × List RoutineOutput :=
  -- determine the sender side and reject senders who already sent an
  -- empty candidate
  if args.Pk = r.pkA then
    let toPk := r.pkB
    if r.pkAHasSentEmptyICECandidate then
      (r, ectpError none ["Another ICE candidate sent after final ICE candidate"]
            ++ ectpError toPk ["Peer sent a malformed message"])
    else
      iceCandidatesValidated r args toPk
  else if args.Pk = r.pkB then
    let toPk := r.pkA
    if r.pkBHasSentEmptyICECandidate then
      (r, ectpError none ["Another ICE candidate sent after final ICE candidate"]
            ++ ectpError toPk ["Peer sent a malformed message"])
    else
      iceCandidatesValidated r args toPk
  else
    (r, [])  -- Go: panic("received ice candidate from unknown client")

/-- `EstablishConnectionToPeer.Next` (lines 39-91). -/
def Next (r : EstablishConnectionToPeer) (args : RoutineInput) :
    EstablishConnectionToPeer × List RoutineOutput :=
  match args.MsgType with
  | RoutineMsgType.Timeout =>
      let ros := ectpError none ["Timeout"]
      if r.pkA.isSome && r.pkB.isSome then
        if args.Pk = r.pkA then
          (r, ros ++ ectpError r.pkB ["Peer timed out"])
        else if args.Pk = r.pkB then
          (r, ros ++ ectpError r.pkA ["Peer timed out"])
        else
          (r, ros)
      else
        (r, ros)
  | RoutineMsgType.ClientClose =>
      if r.pkA.isSome && r.pkB.isSome then
        if args.Pk = r.pkA then
          (r, ectpError r.pkB ["Peer disconnected"])
        else if args.Pk = r.pkB then
          (r, ectpError r.pkA ["Peer disconnected"])
        else
          (r, [])
      else
        (r, [])
  | RoutineMsgType.UsrMsg =>
      if isClientCancelMsg args.Msg then
        cancel r args
      else
        match r.state with
        | ectp_entry => entry r args
        | ectp_bAcceptOrReject => bAcceptOrReject r args
        | ectp_aSdpAnswer => aSdpAnswer r args
        | ectp_iceCandidates => iceCandidates r args

end EstablishConnectionToPeer

/-! ## routines/master.go — the `MasterRoutine` dispatcher
(current struct version with `Next`/`setSubRoutineFromInitialMsg`).
The concrete sub-routines enter through the `RoutineConstructors`
dependency-injection record, exactly as in
`newMasterRoutineDependencyInj`; the sub-routine state type and its step
function are parameters. -/

/-- `routineNames` (routines/master.go): the acceptable values of the
`"initiate":` property. -/
def routineNames : List String := ["comeOnline", "sendConnectionRequest", "sendFriendRequest"]

/-- `initiateSchema`: object with a required `initiate` property drawn
from the `routineNames` enum (additional properties allowed). -/
def initiateSchemaValid : Json → Bool
  | Json.obj fields =>
      (match jsonObjLookup fields "initiate" with
        | some (Json.str s) => routineNames.contains s
        | _ => false)
  | _ => false

/-- `RoutineConstructors` (routines/types.go, current version): the three
constructors the master routine can dispatch to, abstracted over the
sub-routine state type. -/
structure RoutineConstructors (σ : Type) where
  NewComeOnline : σ
  NewEstablishConnectionToPeer : σ
  NewFriendRequest : σ

/-- `MasterRoutine` state. -/
structure MasterRoutine (σ : Type) where
  isSubRoutineSet : Bool
  subRoutine : Option σ
deriving DecidableEq

/-- `newMasterRoutineDependencyInj`: both fields start at their zero
values. -/
def NewMasterRoutine (σ : Type) : MasterRoutine σ :=
  { isSubRoutineSet := false, subRoutine := none }

/-- `MasterRoutine.setSubRoutineFromInitialMsg` (lines 305-339): the
returned `Except` is the `error` result; `ok` carries the freshly
constructed sub-routine. -/
def setSubRoutineFromInitialMsg {σ : Type} (rc : RoutineConstructors σ) (msg : JsonMsg) :
    Except String σ :=
  match msg with
  | JsonMsg.malformed errText => Except.error errText
  | JsonMsg.val j =>
      if ¬ initiateSchemaValid j then
        Except.error jsonSchemaFailureText
      else
        let fields := match j with | Json.obj fs => fs | _ => []
        match getStrField fields "initiate" with
        | "comeOnline" => Except.ok rc.NewComeOnline
        | "sendConnectionRequest" => Except.ok rc.NewEstablishConnectionToPeer
        | "sendFriendRequest" => Except.ok rc.NewFriendRequest
        | _ => Except.error "routine does not exist"

/-- `MasterRoutine.Next` (lines 265-276): on the first input, select the
sub-routine from the message (terminating error on failure), then
delegate the same input; afterwards delegate everything unchanged.
`next` is the `Next` step of the sub-routine type. -/
def MasterRoutine.Next {σ : Type} (next : σ → RoutineInput → σ × List RoutineOutput)
    (rc : RoutineConstructors σ) (m : MasterRoutine σ) (args : RoutineInput) :
    MasterRoutine σ × List RoutineOutput :=
  if ¬ m.isSubRoutineSet then
    match setSubRoutineFromInitialMsg rc args.Msg with
    | Except.error e => (m, [MakeRoutineOutput true [MakeJSONError [e]]])
    | Except.ok sub =>
        let (sub', ros) := next sub args
        ({ isSubRoutineSet := true, subRoutine := some sub' }, ros)
  else
    match m.subRoutine with
    | some sub =>
        let (sub', ros) := next sub args
        ({ m with subRoutine := some sub' }, ros)
    | none => (m, [])  -- nil sub-routine interface: Go panic; unreachable

/-! ## model/client.go — the connection router (`Client.Route`)

One iteration of the read loop, given a successfully read frame.  The
loop leaves only on a transport read error (then the shutdown path
runs); a processed frame never terminates the connection.  Frames are
byte strings; they are modelled as `String` with `.data` as the byte
sequence (all payloads in the claims are ASCII, where Go byte indexing
and character indexing coincide).  The `fromCl` channel of a socket is
buffered with capacity 1 and is modelled as its queue of pending
messages; a non-blocking send succeeds exactly when there is buffer
space.  The transaction/routine objects hanging off a socket do not take
part in the routed-frame claims and are elided; the spawned workers are
recorded as effects. -/

/-- `model.IDLEN`. -/
def IDLEN : Nat := 16

/-- The router-visible part of `model.transactionSocket`. -/
structure RouterSocket where
  id : String
  fromCl : List String
deriving DecidableEq

/-- The router-visible part of `model.Client`: the socket table and the
`disconnected` flag (set only by `Client.close` after the loop exits). -/
structure ClientRouter where
  transactions : List (String × RouterSocket)
  disconnected : Bool
deriving DecidableEq

/-- Externally visible actions of one loop iteration. -/
inductive RouteEffect where
  /-- `fmt.Println("User sent a malformed message: " ...)` -/
  | logMalformed (raw : String)
  /-- `c.writeTransactionMessage(id, msg)`: emit `id ++ msg` on the
  transport -/
  | writeTransactionMessage (id : String) (msg : String)
  /-- `go routeRoutine(hub, tNew)` -/
  | spawnRoutineWorker (id : String)
  /-- `go c.routeTransaction(tSocketNew)` -/
  | spawnSocketWorker (id : String)
deriving DecidableEq

/-- The in-band error for a full socket buffer (Route, existing-id
branch). -/
def bufferOccupiedMsg : String :=
  "\x7b\"error\":\"Buffer is occupied, message ignored\"\x7d"

/-- Look up a socket by transaction id. -/
def lookupSocket (ts : List (String × RouterSocket)) (id : String) :
    Option RouterSocket :=
  match ts with
  | [] => none
  | (k, s) :: rest => if k = id then some s else lookupSocket rest id

/-- Replace the socket bound to `id`. -/
def updateSocket (ts : List (String × RouterSocket)) (id : String)
    (s : RouterSocket) : List (String × RouterSocket) :=
  ts.map (fun p => if p.1 = id then (p.1, s) else p)

/-- `([IDLEN]byte)(msgBytes[:IDLEN])`: the transaction id of a frame. -/
def frameId (msgBytes : String) : String :=
  String.mk (msgBytes.data.take IDLEN)

/-- `string(msgBytes[IDLEN:])`: the payload of a frame (the empty string
for a frame of exactly `IDLEN` bytes). -/
def framePayload (msgBytes : String) : String :=
  String.mk (msgBytes.data.drop IDLEN)

/-- One iteration of `Client.Route` (model/client.go lines 230-294) on a
read frame `msgBytes`. -/
def RouteStep (c : ClientRouter) (msgBytes : String) :
    ClientRouter × List RouteEffect :=
  if msgBytes.length < IDLEN then
    -- short frame: log and continue
    (c, [RouteEffect.logMalformed msgBytes])
  else
    let id := frameId msgBytes
    let payload := framePayload msgBytes
    match lookupSocket c.transactions id with
    | some tSocket =>
        -- existing transaction: non-blocking send onto its buffer
        if tSocket.fromCl.length < 1 then
          let tSocket' := { tSocket with fromCl := tSocket.fromCl ++ [payload] }
          ({ c with transactions := updateSocket c.transactions id tSocket' }, [])
        else
          (c, [RouteEffect.writeTransactionMessage id bufferOccupiedMsg])
    | none =>
        -- new transaction; addTransactionSocket fails iff disconnected
        if c.disconnected then
          (c, [])
        else
          ({ c with transactions :=
              (id, { id := id, fromCl := [payload] }) :: c.transactions },
            [RouteEffect.spawnRoutineWorker id, RouteEffect.spawnSocketWorker id])

/-! ## model/routinerouter.go — the transaction engine

`routeRoutine` consumes `riChan`; each dequeued wrapper carries the
sender socket output channel.  Channels are identified by numeric ids;
the Go nil channel (the zero value that `roChan` keeps when the map
lookup fails) is `none`.  Every channel operation of a step is recorded
in order as a `ChanEvent`; in Go, sending on a closed channel and
closing a nil or closed channel are run-time panics. -/

abbrev ChanId := Nat

/-- A channel operation performed by the engine. -/
inductive ChanEvent where
  | send (ch : Option ChanId) (ro : RoutineOutput)
  | closeChan (ch : Option ChanId)
deriving DecidableEq

/-- `routineInputWrapper`. -/
structure RoutineInputWrapper where
  args : RoutineInput
  senderRoChan : ChanId

/-- The engine-side state `routeRoutine` threads through a run: the
transaction peer map, the local closed-set, and the allocator for the
fresh `roChan` a peer-attach creates.  Clients in the hub are
represented by their `disconnected` flag (the only part
`addTransactionSocket` consults). -/
structure EngineState where
  pkToROChan : List (PublicKey × ChanId)
  closedRoChans : List (Option ChanId)
  nextChanId : ChanId
deriving DecidableEq

/-- Map lookup in `t.pkToROChan`. -/
def lookupROChan (m : List (PublicKey × ChanId)) (pk : PublicKey) : Option ChanId :=
  match m with
  | [] => none
  | (k, ch) :: rest => if k = pk then some ch else lookupROChan rest pk

/-- `distributeRoutineOutputs` (model/routinerouter.go lines 43-81).
Branches, in source order: reply-to-sender; key already in the map
(note: on `Done` the code marks and closes `senderRoChan`, the *sender*
channel, not `roChan`, the channel it sent the output on); key not in
the map (peer-attach — here `roChan` still holds the Go zero value, so
on `Done` the code close-and-marks the nil channel). -/
def distributeRoutineOutputs (hub : GenericHub Bool) (st : EngineState)
    (senderRoChan : ChanId) (ros : List RoutineOutput) :
    EngineState × List ChanEvent :=
  match ros with
  | [] => (st, [])
  | ro :: rest =>
    match ro.Pk with
    | none =>
        let evs := ChanEvent.send (some senderRoChan) ro ::
          (if ro.Done then [ChanEvent.closeChan (some senderRoChan)] else [])
        let st :=
          if ro.Done then
            { st with closedRoChans := st.closedRoChans ++ [some senderRoChan] }
          else st
        let (st', rest') := distributeRoutineOutputs hub st senderRoChan rest
        (st', evs ++ rest')
    | some pk =>
      match lookupROChan st.pkToROChan pk with
      | some roChan =>
          let evs := ChanEvent.send (some roChan) ro ::
            (if ro.Done then [ChanEvent.closeChan (some senderRoChan)] else [])
          let st :=
            if ro.Done then
              { st with closedRoChans := st.closedRoChans ++ [some senderRoChan] }
            else st
          let (st', rest') := distributeRoutineOutputs hub st senderRoChan rest
          (st', evs ++ rest')
      | none =>
        match GenericHub.GetClient hub pk with
        | none =>
            -- fmt.Printf("client does not exist"); continue
            distributeRoutineOutputs hub st senderRoChan rest
        | some disconnected =>
          if disconnected then
            -- addTransactionSocket returned an error; output abandoned
            distributeRoutineOutputs hub st senderRoChan rest
          else
            -- peer-attach: fresh socket, map entry, spawned driver, send;
            -- on Done the code closes `roChan`, which is the nil channel
            let fresh := st.nextChanId
            let evs := ChanEvent.send (some fresh) ro ::
              (if ro.Done then [ChanEvent.closeChan none] else [])
            let st :=
              { st with
                pkToROChan := st.pkToROChan ++ [(pk, fresh)]
                nextChanId := fresh + 1
                closedRoChans :=
                  if ro.Done then st.closedRoChans ++ [none] else st.closedRoChans }
            let (st', rest') := distributeRoutineOutputs hub st senderRoChan rest
            (st', evs ++ rest')

/-- One iteration of the `routeRoutine` loop (model/routinerouter.go
lines 10-40) on a dequeued input wrapper, for a routine with state type
`ρ` and step function `next`. -/
def routeRoutineStep {ρ : Type} (hub : GenericHub Bool)
    (next : ρ → RoutineInput → ρ × List RoutineOutput)
    (routine : ρ) (st : EngineState) (riw : RoutineInputWrapper) :
    ρ × EngineState × List ChanEvent :=
  if st.closedRoChans.contains (some riw.senderRoChan) then
    -- sender channel already closed: discard without invoking Next
    (routine, st, [])
  else
    let (routine', ros) := next routine riw.args
    let (st', evs) := distributeRoutineOutputs hub st riw.senderRoChan ros
    if riw.args.MsgType = RoutineMsgType.ClientClose then
      (routine',
        { st' with closedRoChans := st'.closedRoChans ++ [some riw.senderRoChan] },
        evs ++ [ChanEvent.closeChan (some riw.senderRoChan)])
    else
      (routine', st', evs)

/-- Spec-side observation on an engine event trace: some send targets a
channel that an earlier event of the same trace closed (in Go this send
would panic). -/
def sendAfterCloseAux (closed : List (Option ChanId)) : List ChanEvent → Bool
  | [] => false
  | ChanEvent.send ch _ :: rest =>
      closed.contains ch || sendAfterCloseAux closed rest
  | ChanEvent.closeChan ch :: rest => sendAfterCloseAux (ch :: closed) rest

/-- Whether a trace contains a send on a previously closed channel. -/
def sendAfterClose (evs : List ChanEvent) : Bool :=
  sendAfterCloseAux [] evs

/-! ## Spec-side observations and concrete fixtures used by the
theorems -/

/-- The registration invariant of the spec (glossary: a peer "has an
optional public key that, if set, is registered in the directory"):
every client object with a set public key is registered in the hub
under that key. -/
def worldInvB (w : World) : Bool :=
  w.clients.all (fun p =>
    match p.2.publicKey with
    | some k => GenericHub.GetClient w.hub k == some p.1
    | none => true)

/-- The parsed `initiate` property of a first message (Go unmarshal,
zero value for anything missing). -/
def initiateOf (j : Json) : String :=
  match j with
  | Json.obj fields => getStrField fields "initiate"
  | _ => ""

/-- A trivial sub-routine state for exercising the master dispatcher. -/
def unitRoutineStep : Unit → RoutineInput → Unit × List RoutineOutput :=
  fun s _ => (s, [])

/-- Trivial constructor record for the master dispatcher. -/
def unitRoutineConstructors : RoutineConstructors Unit :=
  { NewComeOnline := ()
    NewEstablishConnectionToPeer := ()
    NewFriendRequest := () }

/-- A routine that answers every input with a fixed output list (used to
drive single engine steps). -/
def constRoutine (ros : List RoutineOutput) :
    Unit → RoutineInput → Unit × List RoutineOutput :=
  fun s _ => (s, ros)

/-- A 16-character transaction id, distinct for each `i < 60`. -/
def mkTid (i : Nat) : String :=
  String.mk (List.replicate 15 'x' ++ [Char.ofNat (48 + i)])

/-- A socket table holding `n` idle transactions. -/
def manyTransactions (n : Nat) : List (String × RouterSocket) :=
  (List.range n).map (fun i => (mkTid i, { id := mkTid i, fromCl := [] }))

/-- A 128-character lowercase-hex key (the sender key of the
self-connect scenario). -/
def selfKey : PublicKey :=
  String.mk (List.replicate 128 'a')

/-- The self-connect first message
`\x7b"initiate":"sendConnectionRequest","key":<sender key>\x7d`. -/
def selfConnectMsg : Json :=
  Json.obj [("initiate", Json.str "sendConnectionRequest"),
            ("key", Json.str selfKey)]

/-- A canonical ICE-candidate message as produced by the client
(scenario 3 of spec §8). -/
def mkIceCandidateMsg (p : EstablishConnectionToPeer.IcePayload) : Json :=
  Json.obj [("forward",
    Json.obj [("type", Json.str "ICECandidate"),
              ("payload",
                Json.obj [("candidate", Json.str p.candidate),
                          ("sdpMLineIndex", Json.num p.sdpMLineIndex),
                          ("sdpMid", Json.str p.sdpMid),
                          ("usernameFragment", Json.str p.usernameFragment)])])]

/-- A `sendConnectionRequest` transaction in the `iceCandidates` state
between peers `"a"` and `"b"`, neither of which has sent an empty
candidate.  Because `EstablishConnectionToPeer` carries no candidate
counter, this is also the exact state after any number of non-empty
candidates have been exchanged. -/
def iceWitnessState : EstablishConnectionToPeer :=
  { pkA := some "a"
    pkB := some "b"
    pkAHasSentEmptyICECandidate := false
    pkBHasSentEmptyICECandidate := false
    hub := []
    state := ectp_iceCandidates }

/-- A routine output of the engine fixture: one message addressed to
peer `"B"` with `Done` set. -/
def engineRoToB : RoutineOutput :=
  { Pk := some "B", Msgs := ["m"], Done := true
    TimeoutEnabled := false, TimeoutDuration := 0 }

/-- The trailing `\x7b"terminate":"done"\x7d` output to the sender, `Done`
set — the shape `iceCandidates` returns on the final candidate. -/
def engineRoSenderDone : RoutineOutput :=
  { Pk := none, Msgs := [terminateDoneJSONMsg], Done := true
    TimeoutEnabled := false, TimeoutDuration := 0 }

/-- Engine fixture: the sender socket writes on channel 0; peer `"B"` is
attached with output channel 1. -/
def engineSt0 : EngineState :=
  { pkToROChan := [("B", 1)], closedRoChans := [], nextChanId := 5 }

/-- A dequeued engine input from the channel-0 sender. -/
def engineRiw0 : RoutineInputWrapper :=
  { args := { MsgType := RoutineMsgType.UsrMsg, Pk := some "A", Msg := JsonMsg.malformed "" }
    senderRoChan := 0 }

/-- Cryptographic primitives that accept everything (witness fixture;
the real primitives are external collaborators). -/
def cpAccepting : CryptoPrimitives :=
  { decodeBase64 := fun _ => Except.ok []
    ed25519Verify := fun _ _ _ => true }

/-- A `ComeOnline` routine that has reached the `recvSignature` step for
client 0 claiming key `"pk"`. -/
def comeOnlineFixture : ComeOnline :=
  { client := 0
    step := ComeOnlineStep.recvSignature
    signThis := "s"
    publicKey := some "pk"
    ed25519PublicKey := some [] }

/-- A world with an empty hub and one key-less client object. -/
def worldFixture : World :=
  { hub := [], clients := [(0, { publicKey := none })] }

/-- A well-formed `\x7b"signature": <base64>\x7d` message. -/
def signatureMsgFixture : JsonMsg :=
  JsonMsg.val (Json.obj [("signature", Json.str "AAAA")])

/-!
# Theorems

Shared helper lemmas first, then one theorem per claim (with its witness
or counterexample where required).
-/

theorem getClient_cons {C : Type} (k' : PublicKey) (c : C) (rest : GenericHub C)
    (k : PublicKey) :
    GenericHub.GetClient ((k', c) :: rest) k
      = if k' = k then some c else GenericHub.GetClient rest k := rfl

theorem getClient_filter_ne {C : Type} (h : GenericHub C) (pk k : PublicKey) (hne : k ≠ pk) :
    GenericHub.GetClient (h.filter (fun p => p.1 ≠ pk)) k = GenericHub.GetClient h k := by
  induction h with
  | nil => rfl
  | cons p rest ih =>
    rcases p with ⟨k', c⟩
    simp only [List.filter_cons]
    by_cases hk : k' = pk
    · rw [if_neg (by simp [hk]), getClient_cons, if_neg ?hne1]
      case hne1 =>
        intro hkk
        exact hne (hkk ▸ hk)
      exact ih
    · rw [if_pos (by simp [hk]), getClient_cons, getClient_cons]
      by_cases hkk : k' = k
      · simp [hkk]
      · rw [if_neg hkk, if_neg hkk]
        exact ih

theorem getClient_filter_self {C : Type} (h : GenericHub C) (pk : PublicKey) :
    GenericHub.GetClient (h.filter (fun p => p.1 ≠ pk)) pk = none := by
  induction h with
  | nil => rfl
  | cons p rest ih =>
    rcases p with ⟨k', c⟩
    simp only [List.filter_cons]
    by_cases hk : k' = pk
    · rw [if_neg (by simp [hk])]
      exact ih
    · rw [if_pos (by simp [hk]), getClient_cons, if_neg hk]
      exact ih

theorem getClient_none_iff_not_mem {C : Type} (h : GenericHub C) (k : PublicKey) :
    GenericHub.GetClient h k = none ↔ k ∉ GenericHub.keys h := by
  induction h with
  | nil => simp [GenericHub.GetClient, GenericHub.keys]
  | cons p rest ih =>
    rcases p with ⟨k', c⟩
    rw [getClient_cons]
    by_cases hk : k' = k
    · simp [hk, GenericHub.keys]
    · simp [hk, GenericHub.keys, ih, Ne.symm hk]

theorem keys_filter_sublist {C : Type} (h : GenericHub C) (pk : PublicKey) :
    (GenericHub.keys (h.filter (fun p => p.1 ≠ pk))).Sublist (GenericHub.keys h) :=
  List.Sublist.map Prod.fst (List.filter_sublist h)

theorem onlyKeys_lookup_none (allowed : List String) (fs : List (String × Json)) (k : String)
    (hall : onlyKeys allowed fs = true) (hk : k ∉ allowed) :
    jsonObjLookup fs k = none := by
  induction fs with
  | nil => rfl
  | cons p rest ih =>
    simp only [onlyKeys, List.all_cons, Bool.and_eq_true] at hall
    have hmem : p.1 ∈ allowed := by
      simpa using hall.1
    have hne : p.1 ≠ k := fun hpk => hk (hpk ▸ hmem)
    simp only [jsonObjLookup, if_neg hne]
    exact ih (by simpa [onlyKeys] using hall.2)

theorem iceValid_not_cancel (j : Json) (h : iceCandidatesSchemaValid j = true) :
    isClientCancelMsg (JsonMsg.val j) = false := by
  cases j with
  | obj fields =>
    simp only [iceCandidatesSchemaValid, Bool.and_eq_true] at h
    have hnone : jsonObjLookup fields "terminate" = none :=
      onlyKeys_lookup_none ["forward"] fields "terminate" h.1 (by simp)
    simp [isClientCancelMsg, clientCancelSchemaValid, hnone]
  | null => simp [iceCandidatesSchemaValid] at h
  | jbool b => simp [iceCandidatesSchemaValid] at h
  | num n => simp [iceCandidatesSchemaValid] at h
  | str s => simp [iceCandidatesSchemaValid] at h
  | arr xs => simp [iceCandidatesSchemaValid] at h

theorem worldInvB_after_register (w : World) (cid : ClientId) (pk : PublicKey)
    (hinv : worldInvB w = true)
    (habs : GenericHub.GetClient w.hub pk = none) :
    worldInvB { hub := (pk, cid) :: w.hub,
                clients := w.clients.map (fun p =>
                  if p.1 = cid then (p.1, (SetPublicKey p.2 (some pk)).1) else p) } = true := by
  simp only [worldInvB, List.all_eq_true] at hinv ⊢
  intro p hp
  rcases List.mem_map.mp hp with ⟨q, hq, rfl⟩
  have hqinv := hinv q hq
  by_cases hqc : q.1 = cid
  · rcases hkq : q.2.publicKey with _ | k
    · -- key was unset; it becomes pk, registered at the head of the hub
      simp only [if_pos hqc, SetPublicKey, hkq, Option.isSome_none, Bool.false_eq_true,
        if_false]
      simp [getClient_cons, hqc]
    · -- key already set to k; SetPublicKey leaves it, hub entry preserved
      have hk : GenericHub.GetClient w.hub k == some q.1 := by
        simpa [hkq] using hqinv
      have hkne : pk ≠ k := by
        intro hpk
        rw [← hpk] at hk
        rw [habs] at hk
        simp at hk
      simp only [if_pos hqc, SetPublicKey, hkq, Option.isSome_some, if_true]
      simp only [hkq, getClient_cons, if_neg hkne]
      simpa [hkq] using hqinv
  · simp only [if_neg hqc]
    rcases hkq : q.2.publicKey with _ | k
    · simp [hkq]
    · have hk : GenericHub.GetClient w.hub k == some q.1 := by
        simpa [hkq] using hqinv
      have hkne : pk ≠ k := by
        intro hpk
        rw [← hpk] at hk
        rw [habs] at hk
        simp at hk
      simp only [hkq, getClient_cons, if_neg hkne]
      exact hk

/-- Claim C1 (code bug): one engine-loop iteration in which the routine
answers the channel-0 sender with a single `Done` output addressed to
peer `"B"` (whose channel is 1).  The engine sends the output on channel
1 but marks and closes channel 0, the *sender* channel — not the channel
it delivered the `Done` output on, which stays open and unmarked; and on
the standard two-output termination (`Done` to the peer followed by
`Done` to the sender, as `iceCandidates` and the reject branch emit) the
second output is sent on the channel the first output just closed, which
in Go panics.  This contradicts the claim, spec §4.4 ("If Done is set on
this output, mark that channel closed … and close it"), the comments of
routinerouter.go and the channel-ownership rules of
docs/architecture.md. -/
theorem routeRoutine_done_closes_sender_channel :
    (routeRoutineStep ([] : GenericHub Bool) (constRoutine [engineRoToB]) () engineSt0 engineRiw0
      = ((), { pkToROChan := [("B", 1)], closedRoChans := [some 0], nextChanId := 5 },
          [ChanEvent.send (some 1) engineRoToB, ChanEvent.closeChan (some 0)])) ∧
    some 1 ∉ (routeRoutineStep ([] : GenericHub Bool) (constRoutine [engineRoToB]) ()
        engineSt0 engineRiw0).2.1.closedRoChans ∧
    (routeRoutineStep ([] : GenericHub Bool) (constRoutine [engineRoToB, engineRoSenderDone]) ()
        engineSt0 engineRiw0).2.2
      = [ChanEvent.send (some 1) engineRoToB, ChanEvent.closeChan (some 0),
         ChanEvent.send (some 0) engineRoSenderDone, ChanEvent.closeChan (some 0)] ∧
    sendAfterClose (routeRoutineStep ([] : GenericHub Bool)
        (constRoutine [engineRoToB, engineRoSenderDone]) () engineSt0 engineRiw0).2.2 = true := by
  decide

set_option maxRecDepth 100000 in
/-- Claim C2 (code bug): the self-connect check expected by the claim
and by establishconnectiontopeer_test.go ("Connecting to yourself is not
allowed") is absent from `entry`.  When a registered client sends a
`sendConnectionRequest` naming its own key, the code takes the
peer-online branch: it forwards `receiveConnectionRequest` back to the
sender with a 10 s timeout and `Done` unset, instead of terminating with
the error.  (The other three branches of the claim — no key set, target
offline, target online — behave as claimed.) -/
theorem ectp_entry_self_connect_not_rejected :
    EstablishConnectionToPeer.Next (newEstablishConnectionToPeer [(selfKey, 7)])
        { MsgType := RoutineMsgType.UsrMsg, Pk := some selfKey, Msg := JsonMsg.val selfConnectMsg }
      = ({ pkA := some selfKey, pkB := some selfKey,
           pkAHasSentEmptyICECandidate := false, pkBHasSentEmptyICECandidate := false,
           hub := [(selfKey, 7)], state := ectp_bAcceptOrReject },
         [{ Pk := some selfKey
            Msgs := ["\x7b\"initiate\":\"receiveConnectionRequest\",\"key\":\""
                       ++ publicKeyToString selfKey ++ "\"\x7d"]
            Done := false, TimeoutEnabled := true, TimeoutDuration := ectpTimeoutDuration }]) ∧
    (EstablishConnectionToPeer.Next (newEstablishConnectionToPeer [(selfKey, 7)])
        { MsgType := RoutineMsgType.UsrMsg, Pk := some selfKey,
          Msg := JsonMsg.val selfConnectMsg }).2
      ≠ ectpError (some selfKey) ["Connecting to yourself is not allowed"] := by
  decide

/-- Claim C4 (code bug): `iceCandidates` keeps no per-side candidate
count at all — on a valid non-empty candidate it returns the input state
unchanged, so the state before the 21st candidate of a side equals the
state before the 1st, and the response is always the plain forward with
a 10 s timeout.  The per-side cap of 20 and the two termination messages
expected by the claim and by establishconnectiontopeer_test.go
(`maxIceCandidates = 20`, "You have sent too many ICE candidates" /
"Peer is sending too many ICE candidates") never occur. -/
theorem ectp_iceCandidates_no_cap :
    EstablishConnectionToPeer.Next iceWitnessState
        { MsgType := RoutineMsgType.UsrMsg, Pk := some "a",
          Msg := JsonMsg.val (mkIceCandidateMsg
            { candidate := "c21", sdpMLineIndex := 0, sdpMid := "0", usernameFragment := "u" }) }
      = (iceWitnessState,
         [{ Pk := some "b"
            Msgs := [EstablishConnectionToPeer.iceForwardedMsg "ICECandidate"
              { candidate := "c21", sdpMLineIndex := 0, sdpMid := "0", usernameFragment := "u" }]
            Done := false, TimeoutEnabled := true, TimeoutDuration := ectpTimeoutDuration }]) ∧
    (EstablishConnectionToPeer.Next iceWitnessState
        { MsgType := RoutineMsgType.UsrMsg, Pk := some "a",
          Msg := JsonMsg.val (mkIceCandidateMsg
            { candidate := "c21", sdpMLineIndex := 0, sdpMid := "0", usernameFragment := "u" }) }).2
      ≠ ectpError none ["You have sent too many ICE candidates"]
          ++ ectpError (some "b") ["Peer is sending too many ICE candidates"] := by
  decide

/-- Claim C10: `SetPublicKey` on a client whose key is already set
returns the "public key already set" error and leaves the client record
unchanged, so a key is set at most once and never changes after being
set. -/
theorem setPublicKey_at_most_once (c : Client) (k : PublicKey) (pk : Option PublicKey)
    (h : c.publicKey = some k) :
    SetPublicKey c pk = (c, some "public key already set") := by
  simp [SetPublicKey, h]

/-- Witness for C10 at a concrete client with key `"k"`. -/
theorem setPublicKey_at_most_once_witness :
    (Client.mk (some "k")).publicKey = some "k" ∧
    SetPublicKey (Client.mk (some "k")) (some "j")
      = (Client.mk (some "k"), some "public key already set") :=
  ⟨rfl, setPublicKey_at_most_once (Client.mk (some "k")) "k" (some "j") rfl⟩

/-- Claim C7: hub registration and unregistration are exact.
`AddClient` succeeds iff the key is unmapped and never overwrites (on
the already-present error the map is returned unchanged); `DeleteClient`
succeeds iff the key is mapped and removes exactly that entry; both
preserve key uniqueness, so at most one client is registered per public
key. -/
theorem hub_add_delete_atomic {C : Type} (h : GenericHub C) (pk : PublicKey) (cl : C)
    (hnd : (GenericHub.keys h).Nodup) :
    ((GenericHub.AddClient h pk cl).2 = none ↔ GenericHub.GetClient h pk = none) ∧
    (GenericHub.GetClient h pk ≠ none →
       GenericHub.AddClient h pk cl = (h, some "client with public key already exists")) ∧
    (GenericHub.GetClient h pk = none →
       GenericHub.GetClient (GenericHub.AddClient h pk cl).1 pk = some cl ∧
       ∀ k, k ≠ pk →
         GenericHub.GetClient (GenericHub.AddClient h pk cl).1 k = GenericHub.GetClient h k) ∧
    ((GenericHub.DeleteClient h pk).2 = none ↔ GenericHub.GetClient h pk ≠ none) ∧
    (GenericHub.GetClient h pk = none →
       GenericHub.DeleteClient h pk = (h, some "client with public key does not exist")) ∧
    (GenericHub.GetClient h pk ≠ none →
       GenericHub.GetClient (GenericHub.DeleteClient h pk).1 pk = none ∧
       ∀ k, k ≠ pk →
         GenericHub.GetClient (GenericHub.DeleteClient h pk).1 k = GenericHub.GetClient h k) ∧
    (GenericHub.keys (GenericHub.AddClient h pk cl).1).Nodup ∧
    (GenericHub.keys (GenericHub.DeleteClient h pk).1).Nodup := by
  by_cases hp : GenericHub.GetClient h pk = none
  · refine ⟨by simp [GenericHub.AddClient, hp], ?_, ?_, ?_, ?_, ?_, ?_, ?_⟩
    · intro hne; exact absurd hp hne
    · intro _
      constructor
      · simp [GenericHub.AddClient, hp, getClient_cons]
      · intro k hk
        simp [GenericHub.AddClient, hp, getClient_cons, Ne.symm hk]
    · simp [GenericHub.DeleteClient, hp]
    · intro _; simp [GenericHub.DeleteClient, hp]
    · intro hne; exact absurd hp hne
    · simp only [GenericHub.AddClient, hp, Option.isSome_none, Bool.false_eq_true, if_false]
      refine List.Nodup.cons ?_ hnd
      exact (getClient_none_iff_not_mem h pk).mp hp
    · simp only [GenericHub.DeleteClient, hp, Option.isSome_none, Bool.false_eq_true, if_false]
      exact hnd
  · have hps : (GenericHub.GetClient h pk).isSome := by
      rcases hq : GenericHub.GetClient h pk with _ | c
      · exact absurd hq hp
      · simp
    refine ⟨by simp [GenericHub.AddClient, hps, hp], ?_, ?_, ?_, ?_, ?_, ?_, ?_⟩
    · intro _; simp [GenericHub.AddClient, hps]
    · intro hq; exact absurd hq hp
    · simp [GenericHub.DeleteClient, hps, hp]
    · intro hq; exact absurd hq hp
    · intro _
      constructor
      · simp only [GenericHub.DeleteClient, hps, if_true]
        exact getClient_filter_self h pk
      · intro k hk
        simp only [GenericHub.DeleteClient, hps, if_true]
        exact getClient_filter_ne h pk k hk
    · simp only [GenericHub.AddClient, hps, if_true]
      exact hnd
    · simp only [GenericHub.DeleteClient, hps, if_true]
      exact hnd.sublist (keys_filter_sublist h pk)

/-- Witness for C7 on the one-entry hub `[("k1", 1)]`. -/
theorem hub_add_delete_atomic_witness :
    (GenericHub.keys ([("k1", 1)] : GenericHub Nat)).Nodup ∧
    ((GenericHub.AddClient ([("k1", 1)] : GenericHub Nat) "k2" 2).2 = none ↔
        GenericHub.GetClient ([("k1", 1)] : GenericHub Nat) "k2" = none) ∧
    (GenericHub.keys (GenericHub.AddClient ([("k1", 1)] : GenericHub Nat) "k2" 2).1).Nodup := by
  have h := hub_add_delete_atomic ([("k1", 1)] : GenericHub Nat) "k2" 2 (by decide)
  exact ⟨by decide, h.1, h.2.2.2.2.2.2.1⟩

open EstablishConnectionToPeer in
/-- Claim C3: in the `iceCandidates` state, a schema-valid ICE candidate
from a participant who has not yet sent an empty candidate is forwarded
to the other side under `\x7b"forwarded": …\x7d` with the 10 s timeout
armed and no `Done`; on the message that makes both sides have sent an
empty candidate, exactly two outputs are returned — the forwarded final
candidate followed by `\x7b"terminate":"done"\x7d` to the receiver and
`\x7b"terminate":"done"\x7d` to the sender, both with `Done` set. -/
theorem ectp_iceCandidates_forwarding
    (r : EstablishConnectionToPeer) (a b sender : PublicKey) (j : Json)
    (hstate : r.state = ectp_iceCandidates)
    (hA : r.pkA = some a) (hB : r.pkB = some b) (hab : a ≠ b)
    (hsender : sender = a ∨ sender = b)
    (hnotdoneA : sender = a → r.pkAHasSentEmptyICECandidate = false)
    (hnotdoneB : sender = b → r.pkBHasSentEmptyICECandidate = false)
    (hvalid : iceCandidatesSchemaValid j = true) :
    (((iceUnmarshal j).2.candidate = "" →
       (if sender = a then r.pkBHasSentEmptyICECandidate
        else r.pkAHasSentEmptyICECandidate) = true →
        (EstablishConnectionToPeer.Next r
          { MsgType := RoutineMsgType.UsrMsg, Pk := some sender, Msg := JsonMsg.val j }).2
          = [{ Pk := some (if sender = a then b else a)
               Msgs := [iceForwardedMsg (iceUnmarshal j).1 (iceUnmarshal j).2,
                        terminateDoneJSONMsg]
               Done := true, TimeoutEnabled := false, TimeoutDuration := 0 },
             { Pk := none
               Msgs := [terminateDoneJSONMsg]
               Done := true, TimeoutEnabled := false, TimeoutDuration := 0 }])) ∧
    (((iceUnmarshal j).2.candidate ≠ "" ∨
       (if sender = a then r.pkBHasSentEmptyICECandidate
        else r.pkAHasSentEmptyICECandidate) = false) →
        (EstablishConnectionToPeer.Next r
          { MsgType := RoutineMsgType.UsrMsg, Pk := some sender, Msg := JsonMsg.val j }).2
          = [{ Pk := some (if sender = a then b else a)
               Msgs := [iceForwardedMsg (iceUnmarshal j).1 (iceUnmarshal j).2]
               Done := false, TimeoutEnabled := true, TimeoutDuration := ectpTimeoutDuration }] ∧
        ∀ ro ∈ (EstablishConnectionToPeer.Next r
          { MsgType := RoutineMsgType.UsrMsg, Pk := some sender, Msg := JsonMsg.val j }).2,
            ro.Done = false) := by
  have hnc := iceValid_not_cancel j hvalid
  rcases hsender with hs | hs
  · subst hs
    have hflagA := hnotdoneA rfl
    constructor
    · intro hempty hother
      simp only [if_pos rfl, if_true] at hother
      simp [EstablishConnectionToPeer.Next, hnc, hstate, iceCandidates, hA, hB, hflagA,
        iceCandidatesValidated, hvalid, hempty, hother]
    · intro hcase
      simp only [if_pos rfl, if_true] at hcase
      rcases hcase with hne | hother
      · simp [EstablishConnectionToPeer.Next, hnc, hstate, iceCandidates, hA, hB, hflagA,
          iceCandidatesValidated, hvalid, hne]
      · by_cases hempty : (iceUnmarshal j).2.candidate = ""
        · simp [EstablishConnectionToPeer.Next, hnc, hstate, iceCandidates, hA, hB, hflagA,
            iceCandidatesValidated, hvalid, hempty, hother]
        · simp [EstablishConnectionToPeer.Next, hnc, hstate, iceCandidates, hA, hB, hflagA,
            iceCandidatesValidated, hvalid, hempty]
  · subst hs
    have hflagB := hnotdoneB rfl
    have hba : sender ≠ a := fun hsa => hab (hsa ▸ rfl)
    constructor
    · intro hempty hother
      simp only [if_neg hba] at hother
      simp [EstablishConnectionToPeer.Next, hnc, hstate, iceCandidates, hA, hB, hflagB, hba,
        iceCandidatesValidated, hvalid, hempty, hother]
    · intro hcase
      simp only [if_neg hba] at hcase
      rcases hcase with hne | hother
      · simp [EstablishConnectionToPeer.Next, hnc, hstate, iceCandidates, hA, hB, hflagB, hba,
          iceCandidatesValidated, hvalid, hne]
      · by_cases hempty : (iceUnmarshal j).2.candidate = ""
        · simp [EstablishConnectionToPeer.Next, hnc, hstate, iceCandidates, hA, hB, hflagB, hba,
            iceCandidatesValidated, hvalid, hempty, hother]
        · simp [EstablishConnectionToPeer.Next, hnc, hstate, iceCandidates, hA, hB, hflagB, hba,
            iceCandidatesValidated, hvalid, hempty]

open EstablishConnectionToPeer in
/-- Witness for C3: candidate `"c1"` from `"a"` is forwarded to `"b"`
with the 10 s timeout and no `Done`. -/
theorem ectp_iceCandidates_forwarding_witness :
    (EstablishConnectionToPeer.Next iceWitnessState
        { MsgType := RoutineMsgType.UsrMsg, Pk := some "a",
          Msg := JsonMsg.val (mkIceCandidateMsg
            { candidate := "c1", sdpMLineIndex := 0, sdpMid := "0", usernameFragment := "u" }) }).2
      = [{ Pk := some "b"
           Msgs := [iceForwardedMsg "ICECandidate"
             { candidate := "c1", sdpMLineIndex := 0, sdpMid := "0", usernameFragment := "u" }]
           Done := false, TimeoutEnabled := true, TimeoutDuration := ectpTimeoutDuration }] ∧
    ∀ ro ∈ (EstablishConnectionToPeer.Next iceWitnessState
        { MsgType := RoutineMsgType.UsrMsg, Pk := some "a",
          Msg := JsonMsg.val (mkIceCandidateMsg
            { candidate := "c1", sdpMLineIndex := 0, sdpMid := "0", usernameFragment := "u" }) }).2,
        ro.Done = false := by
  have h := (ectp_iceCandidates_forwarding iceWitnessState "a" "b" "a"
      (mkIceCandidateMsg
        { candidate := "c1", sdpMLineIndex := 0, sdpMid := "0", usernameFragment := "u" })
      rfl rfl rfl (by decide) (Or.inl rfl) (fun _ => rfl) (by decide) (by decide)).2
      (Or.inl (by decide))
  simpa using h

/-- Claim C5 (amended: the accepted initiate tokens are exactly
`comeOnline`, `sendConnectionRequest` and `sendFriendRequest` — there is
no `sendFriendRejection` token): on the first input, a message passing
the initiate schema instantiates the corresponding sub-routine through
the constructor record and delegates the same input to it; any other
first message — schema mismatch or malformed JSON — yields a single
terminating error output and leaves no sub-routine set. -/
theorem master_dispatch_tokens (σ : Type) (next : σ → RoutineInput → σ × List RoutineOutput)
    (rc : RoutineConstructors σ) (mt : RoutineMsgType) (pk : Option PublicKey) :
    (∀ j : Json, initiateSchemaValid j = true →
      (initiateOf j = "comeOnline" ∨ initiateOf j = "sendConnectionRequest" ∨
         initiateOf j = "sendFriendRequest") ∧
      (initiateOf j = "comeOnline" →
        MasterRoutine.Next next rc (NewMasterRoutine σ)
            { MsgType := mt, Pk := pk, Msg := JsonMsg.val j }
          = ({ isSubRoutineSet := true,
               subRoutine := some (next rc.NewComeOnline
                 { MsgType := mt, Pk := pk, Msg := JsonMsg.val j }).1 },
             (next rc.NewComeOnline { MsgType := mt, Pk := pk, Msg := JsonMsg.val j }).2)) ∧
      (initiateOf j = "sendConnectionRequest" →
        MasterRoutine.Next next rc (NewMasterRoutine σ)
            { MsgType := mt, Pk := pk, Msg := JsonMsg.val j }
          = ({ isSubRoutineSet := true,
               subRoutine := some (next rc.NewEstablishConnectionToPeer
                 { MsgType := mt, Pk := pk, Msg := JsonMsg.val j }).1 },
             (next rc.NewEstablishConnectionToPeer
               { MsgType := mt, Pk := pk, Msg := JsonMsg.val j }).2)) ∧
      (initiateOf j = "sendFriendRequest" →
        MasterRoutine.Next next rc (NewMasterRoutine σ)
            { MsgType := mt, Pk := pk, Msg := JsonMsg.val j }
          = ({ isSubRoutineSet := true,
               subRoutine := some (next rc.NewFriendRequest
                 { MsgType := mt, Pk := pk, Msg := JsonMsg.val j }).1 },
             (next rc.NewFriendRequest { MsgType := mt, Pk := pk, Msg := JsonMsg.val j }).2))) ∧
    (∀ j : Json, initiateSchemaValid j = false →
      MasterRoutine.Next next rc (NewMasterRoutine σ)
          { MsgType := mt, Pk := pk, Msg := JsonMsg.val j }
        = (NewMasterRoutine σ,
           [MakeRoutineOutput true [MakeJSONError [jsonSchemaFailureText]]])) ∧
    (∀ e : String,
      MasterRoutine.Next next rc (NewMasterRoutine σ)
          { MsgType := mt, Pk := pk, Msg := JsonMsg.malformed e }
        = (NewMasterRoutine σ, [MakeRoutineOutput true [MakeJSONError [e]]])) := by
  refine ⟨?_, ?_, ?_⟩
  · intro j hvalid
    have hobj : ∃ fields, j = Json.obj fields := by
      cases j with
      | obj fields => exact ⟨fields, rfl⟩
      | null => simp [initiateSchemaValid] at hvalid
      | jbool b => simp [initiateSchemaValid] at hvalid
      | num n => simp [initiateSchemaValid] at hvalid
      | str s => simp [initiateSchemaValid] at hvalid
      | arr xs => simp [initiateSchemaValid] at hvalid
    rcases hobj with ⟨fields, rfl⟩
    have hP : ∃ s, jsonObjLookup fields "initiate" = some (Json.str s) ∧
        routineNames.contains s := by
      rcases hlook : jsonObjLookup fields "initiate" with _ | v
      · simp [initiateSchemaValid, hlook] at hvalid
      · cases v with
        | str s => exact ⟨s, rfl, by simpa [initiateSchemaValid, hlook] using hvalid⟩
        | null => simp [initiateSchemaValid, hlook] at hvalid
        | jbool b => simp [initiateSchemaValid, hlook] at hvalid
        | num n => simp [initiateSchemaValid, hlook] at hvalid
        | arr xs => simp [initiateSchemaValid, hlook] at hvalid
        | obj fs => simp [initiateSchemaValid, hlook] at hvalid
    rcases hP with ⟨s, hlook, hmem⟩
    have hinit : initiateOf (Json.obj fields) = s := by
      simp [initiateOf, getStrField, hlook]
    have hcases : s = "comeOnline" ∨ s = "sendConnectionRequest" ∨ s = "sendFriendRequest" := by
      simpa [routineNames] using hmem
    refine ⟨by rw [hinit]; exact hcases, ?_, ?_, ?_⟩
    · intro hco
      rw [hinit] at hco
      subst hco
      simp [MasterRoutine.Next, NewMasterRoutine, setSubRoutineFromInitialMsg, hvalid,
        getStrField, hlook]
    · intro hco
      rw [hinit] at hco
      subst hco
      simp [MasterRoutine.Next, NewMasterRoutine, setSubRoutineFromInitialMsg, hvalid,
        getStrField, hlook]
    · intro hco
      rw [hinit] at hco
      subst hco
      simp [MasterRoutine.Next, NewMasterRoutine, setSubRoutineFromInitialMsg, hvalid,
        getStrField, hlook]
  · intro j hinvalid
    simp [MasterRoutine.Next, NewMasterRoutine, setSubRoutineFromInitialMsg, hinvalid,
      MakeRoutineOutput]
  · intro e
    simp [MasterRoutine.Next, NewMasterRoutine, setSubRoutineFromInitialMsg, MakeRoutineOutput]

/-- Counterexample for C5 as stated: the first message
`\x7b"initiate":"sendFriendRejection"\x7d` does not instantiate a
friend-rejection sub-routine — `routineNames` has no such token, the
initiate schema rejects the message, and the master routine returns a
single terminating error output with the sub-routine still unset. -/
theorem master_rejects_sendFriendRejection :
    MasterRoutine.Next unitRoutineStep unitRoutineConstructors (NewMasterRoutine Unit)
        { MsgType := RoutineMsgType.UsrMsg, Pk := none,
          Msg := JsonMsg.val (Json.obj [("initiate", Json.str "sendFriendRejection")]) }
      = (NewMasterRoutine Unit,
         [MakeRoutineOutput true [MakeJSONError [jsonSchemaFailureText]]]) := by
  decide

/-- Witness for C5 at the token `comeOnline` with a trivial sub-routine
state. -/
theorem master_dispatch_tokens_witness :
    initiateSchemaValid (Json.obj [("initiate", Json.str "comeOnline")]) = true ∧
    MasterRoutine.Next unitRoutineStep unitRoutineConstructors (NewMasterRoutine Unit)
        { MsgType := RoutineMsgType.UsrMsg, Pk := none,
          Msg := JsonMsg.val (Json.obj [("initiate", Json.str "comeOnline")]) }
      = ({ isSubRoutineSet := true, subRoutine := some () }, []) := by
  have h := ((master_dispatch_tokens Unit unitRoutineStep unitRoutineConstructors
      RoutineMsgType.UsrMsg none).1
      (Json.obj [("initiate", Json.str "comeOnline")]) (by decide)).2.1 (by decide)
  exact ⟨by decide, by simpa [unitRoutineStep, unitRoutineConstructors] using h⟩

/-- Claim C6 (amended: there is no concurrent-transaction cap): for
every frame with an unseen id received while the client is connected,
the router creates a new transaction and transaction socket bound to
that id, delivers the payload as the first input, and spawns the two
workers; and across all states and frames the only in-band error the
route step ever writes is the buffer-occupied message — in particular
`\x7b"terminate":"cancel","error":"Max transactions reached"\x7d` is
never sent. -/
theorem route_unknown_id_always_creates (c : ClientRouter) (frame : String)
    (hdisc : c.disconnected = false)
    (hlen : IDLEN ≤ frame.length)
    (hnew : lookupSocket c.transactions (frameId frame) = none) :
    RouteStep c frame
      = ({ transactions :=
            (frameId frame, { id := frameId frame, fromCl := [framePayload frame] })
              :: c.transactions,
           disconnected := false },
         [RouteEffect.spawnRoutineWorker (frameId frame),
          RouteEffect.spawnSocketWorker (frameId frame)]) ∧
    (∀ (c' : ClientRouter) (frame' i s : String),
        RouteEffect.writeTransactionMessage i s ∈ (RouteStep c' frame').2 →
        s = bufferOccupiedMsg) := by
  constructor
  · simp [RouteStep, Nat.not_lt.mpr hlen, hnew, hdisc]
  · intro c' frame' i s hmem
    by_cases hshort : frame'.length < IDLEN
    · simp [RouteStep, hshort] at hmem
    · rcases hlk : lookupSocket c'.transactions (frameId frame') with _ | ts
      · by_cases hd : c'.disconnected
        · simp [RouteStep, hshort, hlk, hd] at hmem
        · simp [RouteStep, hshort, hlk, hd] at hmem
      · by_cases hbuf : ts.fromCl.length < 1
        · simp [RouteStep, hshort, hlk, hbuf] at hmem
        · simp [RouteStep, hshort, hlk, hbuf] at hmem
          exact hmem.2

/-- Counterexample for C6 as stated: a client already holding 32
concurrent transactions receives a frame with a fresh id; the router
creates a 33rd transaction and writes nothing — no
"Max transactions reached" rejection occurs at any cap up to 32 (and by
`route_unknown_id_always_creates` at no count whatsoever). -/
theorem route_no_cap_counterexample :
    (RouteStep { transactions := manyTransactions 32, disconnected := false }
        (String.mk (List.replicate 16 'z') ++ "hello")).1.transactions.length = 33 ∧
    (RouteStep { transactions := manyTransactions 32, disconnected := false }
        (String.mk (List.replicate 16 'z') ++ "hello")).2
      = [RouteEffect.spawnRoutineWorker (String.mk (List.replicate 16 'z')),
         RouteEffect.spawnSocketWorker (String.mk (List.replicate 16 'z'))] := by
  decide

/-- Witness for C6 on a client with one existing transaction. -/
theorem route_unknown_id_always_creates_witness :
    RouteStep { transactions := manyTransactions 1, disconnected := false } "0000000000000000hi"
      = ({ transactions :=
            ("0000000000000000", { id := "0000000000000000", fromCl := ["hi"] })
              :: manyTransactions 1,
           disconnected := false },
         [RouteEffect.spawnRoutineWorker "0000000000000000",
          RouteEffect.spawnSocketWorker "0000000000000000"]) :=
  (route_unknown_id_always_creates
    { transactions := manyTransactions 1, disconnected := false } "0000000000000000hi"
    rfl (by decide) (by decide)).1

/-- Claim C8 (amended: a frame addressed to an existing socket is
delivered only when the socket inbox has space; when the inbox is
occupied the payload is dropped and a buffer-occupied error is written
instead): frames shorter than 16 bytes are logged and discarded with the
connection kept and no socket touched; longer frames split into the
16-byte id and the payload, the empty string for a 16-byte frame. -/
theorem route_frame_split (c : ClientRouter) (frame : String) :
    (frame.length < IDLEN →
       RouteStep c frame = (c, [RouteEffect.logMalformed frame])) ∧
    (IDLEN ≤ frame.length →
       ∀ ts, lookupSocket c.transactions (frameId frame) = some ts →
         (ts.fromCl = [] →
            RouteStep c frame
              = ({ transactions := updateSocket c.transactions (frameId frame)
                     { id := ts.id, fromCl := ts.fromCl ++ [framePayload frame] },
                   disconnected := c.disconnected }, [])) ∧
         (ts.fromCl ≠ [] →
            RouteStep c frame
              = (c, [RouteEffect.writeTransactionMessage (frameId frame)
                       bufferOccupiedMsg]))) ∧
    (frame.length = IDLEN → framePayload frame = "") := by
  refine ⟨?_, ?_, ?_⟩
  · intro hshort
    simp [RouteStep, hshort]
  · intro hlen ts hts
    constructor
    · intro hempty
      simp [RouteStep, Nat.not_lt.mpr hlen, hts, hempty]
    · intro hfull
      have hb : ¬ ts.fromCl.length < 1 := by
        cases hcl : ts.fromCl with
        | nil => exact absurd hcl hfull
        | cons x xs => simp [hcl]
      simp [RouteStep, Nat.not_lt.mpr hlen, hts, hb]
  · intro heq
    have hdrop : frame.data.drop IDLEN = [] := by
      apply List.drop_eq_nil_of_le
      have : frame.data.length = IDLEN := heq
      omega
    simp [framePayload, hdrop]

/-- Counterexample for C8 as stated: the addressed socket inbox already
holds a pending message, so the payload `"hello"` is *not* delivered —
the frame is dropped and the buffer-occupied error is written, and the
inbox still holds only the pending message. -/
theorem route_busy_buffer_drops_payload :
    RouteStep
        { transactions :=
            [("0000000000000000", { id := "0000000000000000", fromCl := ["pending"] })],
          disconnected := false }
        "0000000000000000hello"
      = ({ transactions :=
            [("0000000000000000", { id := "0000000000000000", fromCl := ["pending"] })],
           disconnected := false },
         [RouteEffect.writeTransactionMessage "0000000000000000" bufferOccupiedMsg]) := by
  decide

/-- Witness for C8: a frame addressed to an empty-inbox socket is
delivered, and a frame of exactly 16 bytes has the empty payload. -/
theorem route_frame_split_witness :
    RouteStep
        { transactions := [("0123456789abcdef", { id := "0123456789abcdef", fromCl := [] })],
          disconnected := false }
        "0123456789abcdefhi"
      = ({ transactions := updateSocket
             [("0123456789abcdef", { id := "0123456789abcdef", fromCl := [] })]
             (frameId "0123456789abcdefhi")
             { id := "0123456789abcdef", fromCl := [] ++ [framePayload "0123456789abcdefhi"] },
           disconnected := false }, []) ∧
    framePayload "0123456789abcdef" = "" := by
  refine ⟨?_, ?_⟩
  · exact ((route_frame_split
      { transactions := [("0123456789abcdef", { id := "0123456789abcdef", fromCl := [] })],
        disconnected := false }
      "0123456789abcdefhi").2.1 (by decide)
      { id := "0123456789abcdef", fromCl := [] } (by decide)).1 rfl
  · exact (route_frame_split
      { transactions := [("0123456789abcdef", { id := "0123456789abcdef", fromCl := [] })],
        disconnected := false }
      "0123456789abcdef").2.2 (by decide)

/-- Claim C9: the `recvSignature` step registers the client in the hub
*before* setting its public key.  Whatever the input, the step preserves
the invariant that every client object with a set public key is
registered in the hub under that key; and when parsing and signature
verification succeed, a failed hub registration (key already taken)
yields exactly one terminating error output with the world unchanged —
so the client public key stays nil — while a successful registration
installs the hub entry and sets the key. -/
theorem comeOnline_register_before_setkey
    (cp : CryptoPrimitives) (c : ComeOnline) (w : World) (msg : JsonMsg) (pk : PublicKey)
    (hpk : c.publicKey = some pk)
    (hinv : worldInvB w = true) :
    worldInvB (ComeOnline.recvSignature cp c w msg).2.1 = true ∧
    (∀ sig keyBytes,
        c.ed25519PublicKey = some keyBytes →
        parseUserSignatureMessage cp msg = Except.ok sig →
        cp.ed25519Verify keyBytes c.signThis sig = true →
        ((GenericHub.GetClient w.hub pk).isSome →
            ComeOnline.recvSignature cp c w msg
              = (c, w, makeCOOutput true
                  [MakeJSONError ["client with public key already exists"]])) ∧
        (GenericHub.GetClient w.hub pk = none →
            GenericHub.GetClient (ComeOnline.recvSignature cp c w msg).2.1.hub pk
              = some c.client ∧
            (ComeOnline.recvSignature cp c w msg).2.2
              = makeCOOutput true ["\x7b\"welcome\":\"welcome\",\"terminate\":\"done\"\x7d"])) := by
  constructor
  · rcases hparse : parseUserSignatureMessage cp msg with e | sig
    · simpa [ComeOnline.recvSignature, hparse] using hinv
    · rcases hkb : c.ed25519PublicKey with _ | keyBytes
      · simpa [ComeOnline.recvSignature, hparse, hkb] using hinv
      · rcases hverify : cp.ed25519Verify keyBytes c.signThis sig with _ | _
        · simpa [ComeOnline.recvSignature, hparse, hkb, hpk, hverify] using hinv
        · rcases hhub : GenericHub.GetClient w.hub pk with _ | cl
          · -- registration succeeds: hub gains pk ↦ c.client, client key set
            have hreg := worldInvB_after_register w c.client pk hinv hhub
            simp only [ComeOnline.recvSignature, hparse, hkb, hpk, hverify,
              GenericHub.AddClient, hhub, Option.isSome_none, Bool.false_eq_true, if_false,
              Bool.not_true]
            simpa [World.setClientKey] using hreg
          · -- key already registered: error branch, world unchanged
            simpa [ComeOnline.recvSignature, hparse, hkb, hpk, hverify,
              GenericHub.AddClient, hhub] using hinv
  · intro sig keyBytes hkb hparse hverify
    constructor
    · intro hsome
      rcases hhub : GenericHub.GetClient w.hub pk with _ | cl
      · rw [hhub] at hsome
        simp at hsome
      · simp [ComeOnline.recvSignature, hparse, hkb, hpk, hverify,
          GenericHub.AddClient, hhub]
    · intro hhub
      simp [ComeOnline.recvSignature, hparse, hkb, hpk, hverify,
        GenericHub.AddClient, hhub, getClient_cons, World.setClientKey]

/-- Witness for C9: with accepting crypto primitives, a valid signature
message from the fixture client registers it in the hub and emits the
welcome frame. -/
theorem comeOnline_register_before_setkey_witness :
    worldInvB (ComeOnline.recvSignature cpAccepting comeOnlineFixture worldFixture
        signatureMsgFixture).2.1 = true ∧
    GenericHub.GetClient (ComeOnline.recvSignature cpAccepting comeOnlineFixture worldFixture
        signatureMsgFixture).2.1.hub "pk" = some 0 ∧
    (ComeOnline.recvSignature cpAccepting comeOnlineFixture worldFixture
        signatureMsgFixture).2.2
      = makeCOOutput true ["\x7b\"welcome\":\"welcome\",\"terminate\":\"done\"\x7d"] := by
  have h := comeOnline_register_before_setkey cpAccepting comeOnlineFixture worldFixture
      signatureMsgFixture "pk" rfl (by decide)
  have hs := (h.2 [] [] rfl rfl rfl).2 rfl
  exact ⟨h.1, hs.1, hs.2⟩

end Harmony
